import Mathlib

/-!
Shallow embedding of veman (virtual environment manager, `veman/main.py`).

Filesystem probes are modelled by an abstract `FS` record of pure predicates
(`Path(...).is_dir()`, `Path(...).is_file()`, `os.listdir`).  Python string
indexing that can raise (e.g. `directory[-1]` on the empty string,
`lines[1]` on a short file) is modelled by `Option`: `none` is an uncaught
exception escaping the function.  Side effects (prints, `sys.exit`,
filesystem mutation, spawning the interactive shell) are modelled by an
explicit `Outcome` record returned by the lifecycle operations.

Python's string helpers `str.strip`, `str.split(sep)`, `str.replace` and
`int(...)` are re-implemented structurally over the character list of the
string (`py_strip`, `py_split`, `py_remove_newlines`, `py_int`), so that
every definition evaluates by `decide`/`rfl` on concrete inputs.
-/

namespace Veman2Proof

/-- Abstract read-only filesystem view used by the directory prober and the
registry: `is_dir`/`is_file` model `Path(p).is_dir()` / `Path(p).is_file()`,
`listdir` models `os.listdir(p)`. -/
structure FS where
  is_dir : String → Bool
  is_file : String → Bool
  listdir : String → List String

/-- Last character of a Python string, `s[-1]`; `none` when `s` is empty
(where Python raises `IndexError`). -/
def last_char (s : String) : Option Char :=
  s.toList.getLast?

/-- The trailing-separator normalization shared by `is_venv` and
`is_managed_venv`: `if directory[-1] != '/': directory = directory + '/'`.
Only meaningful for nonempty strings (see `last_char`). -/
def normalize_dir (directory : String) : String :=
  if last_char directory ≠ some '/' then directory ++ "/" else directory

/-- `is_venv(directory)` from `main.py`: after normalizing the trailing
separator, the directory is a venv iff it is a directory and contains
`pyvenv.cfg`, `bin/`, `bin/python` and `bin/activate`.  `none` models the
`IndexError` raised by `directory[-1]` on the empty string. -/
def is_venv (fs : FS) (directory : String) : Option Bool :=
  if directory = "" then none
  else
    let d := normalize_dir directory
    some (fs.is_dir d && fs.is_file (d ++ "pyvenv.cfg") && fs.is_dir (d ++ "bin") &&
      fs.is_file (d ++ "bin/python") && fs.is_file (d ++ "bin/activate"))

/-- `is_managed_venv(directory)` from `main.py`: after the same
normalization, the directory is managed iff `is_venv` holds and
`bin/veman_activate` exists.  The `Option.map` propagates a (in fact
unreachable, since the normalized path is nonempty) exception from the inner
`is_venv` call. -/
def is_managed_venv (fs : FS) (directory : String) : Option Bool :=
  if directory = "" then none
  else
    let d := normalize_dir directory
    (is_venv fs d).map (fun v => v && fs.is_file (d ++ "bin/veman_activate"))

/-- Python `str.strip()`: remove leading and trailing whitespace. -/
def py_strip (s : String) : String :=
  String.mk (((s.data.dropWhile Char.isWhitespace).reverse.dropWhile
    Char.isWhitespace).reverse)

/-- Python `str.split(sep)` for a one-character separator, over character
lists: split at every occurrence of `sep`, keeping empty fields.  The result
is always nonempty. -/
def py_split_chars (sep : Char) : List Char → List (List Char)
  | [] => [[]]
  | c :: rest =>
    let r := py_split_chars sep rest
    if c = sep then [] :: r
    else
      match r with
      | h :: t => (c :: h) :: t
      | [] => [[c]]

/-- Python `str.split(sep)` for a one-character separator. -/
def py_split (s : String) (sep : Char) : List String :=
  (py_split_chars sep s.data).map String.mk

/-- Python `line.replace('\n', '')`: remove every newline character. -/
def py_remove_newlines (s : String) : String :=
  String.mk (s.data.filter (fun c => c ≠ '\n'))

/-- Decimal digit accumulator for `py_int`: `none` as soon as a non-digit
appears. -/
def py_digits_to_nat (acc : Nat) : List Char → Option Nat
  | [] => some acc
  | c :: rest =>
    if c.isDigit then py_digits_to_nat (acc * 10 + (c.toNat - 48)) rest
    else none

/-- Python `int(s)` on user input: strip whitespace, optional sign, then a
nonempty run of decimal digits; `none` models the `ValueError` raised on any
other shape.  (Underscore digit grouping and non-ASCII digits, which Python
also accepts, do not occur in any input considered here.) -/
def py_int (s : String) : Option Int :=
  match (py_strip s).data with
  | [] => none
  | '-' :: rest =>
    if rest = [] then none else (py_digits_to_nat 0 rest).map (fun n => -(n : Int))
  | '+' :: rest =>
    if rest = [] then none else (py_digits_to_nat 0 rest).map (fun n => (n : Int))
  | l => (py_digits_to_nat 0 l).map (fun n => (n : Int))

/-- Python truthiness of an optional string (`if context.virtual_env:`):
`None` and the empty string are falsy. -/
def py_truthy (s : Option String) : Bool :=
  match s with
  | none => false
  | some v => v != ""

/-- The context record built by `get_context()`: platform identifier,
shell program, optional currently-active environment (`VIRTUAL_ENV`,
absent key modelled as `none`), and the root environment directory. -/
structure Context where
  os : String
  shell : String
  virtual_env : Option String
  env_dir : String

/-- The `Veman` object state set up by `Veman.__init__`: name, context and
the configuration snapshot.  `base_path`, `veman_activate` and
`veman_history` are derived below exactly as in `__init__`. -/
structure Veman where
  name : String
  context : Context
  prompt : Option String := none
  system_site_packages : Bool := false
  upgrade_deps : Bool := false
  upgrade_python : Bool := false
  with_pip : Bool := true

/-- `self.base_path = context.env_dir`. -/
def Veman.base_path (env : Veman) : String := env.context.env_dir

/-- `self.veman_activate = self.base_path + self.name + '/bin/veman_activate'`. -/
def Veman.veman_activate (env : Veman) : String :=
  env.base_path ++ env.name ++ "/bin/veman_activate"

/-- `self.veman_history = self.base_path + self.name + '/.veman_history'`. -/
def Veman.veman_history (env : Veman) : String :=
  env.base_path ++ env.name ++ "/.veman_history"

/-- Result of `open(path).readlines()`: the file's lines (each keeping its
trailing newline), or the exception raised by `open`. -/
inductive ReadResult where
  | ok (lines : List String)
  | notFound
  | ioError
  deriving DecidableEq, Repr

/-- `Veman.shell_history`: on `FileNotFoundError` return `[]`; on `IOError`
the handler only prints, after which the `for` loop reads the never-assigned
local `lines` and raises `UnboundLocalError` — modelled as `none`.  On a
successful read, strip newlines and (when verbose) prefix each line with
`[name:index]`, indices starting at 1 (`enumerate(lines, start=1)`). -/
def shell_history (name : String) (res : ReadResult) (verbose : Bool) :
    Option (List String) :=
  match res with
  | .notFound => some []
  | .ioError => none
  | .ok lines =>
    some (lines.enum.map (fun p =>
      let line := py_remove_newlines p.2
      if verbose then "[" ++ name ++ ":" ++ toString (p.1 + 1) ++ "] " ++ line
      else line))

/-- `generate_veman_activate_script(env)`: the ordered line sequence of the
activation script.  `home` models `Path.home()`. -/
def generate_veman_activate_script (env : Veman) (home : String) : List String :=
  let script_version := "0.2"
  let etc_profile := if env.context.os = "darwin" then "/etc/profile" else ""
  let home_rc :=
    if env.context.os = "darwin" then home ++ "/.bash_profile" else home ++ "/.bashrc"
  let venv_activate := env.base_path ++ env.name ++ "/bin/activate"
  ["#!/bin/bash", "# script_version = " ++ script_version, ""] ++
    (if env.context.os = "darwin" then
      ["export SHELL_SESSION_HISTORY=0", "export HISTFILE=" ++ env.veman_history,
        "source " ++ etc_profile, ""]
    else []) ++
    ["[ -r " ++ home_rc ++ " ] && source " ++ home_rc,
      "source " ++ venv_activate,
      "alias deactivate=\x22deactivate && exit\x22", ""] ++
    (if env.context.os = "linux" || env.context.os.startsWith "freebsd" then
      ["export HISTFILE=" ++ env.veman_history, ""]
    else [])

/-- `Veman.install_scripts` writes `f'{line}\n'` for each generated line;
this is the resulting file content as `readlines()` would return it (no
generated line contains an embedded newline). -/
def install_scripts_written_file (env : Veman) (home : String) : List String :=
  (generate_veman_activate_script env home).map (fun line => line ++ "\n")

/-- `read_veman_activate_script_version(script_path)`.  Outer `none` is an
uncaught exception; the inner option is the Python return value
(`str | None`).  `FileNotFoundError`/`IOError` are reported and yield `None`.
On a readable file: `lines[1]` raises an uncaught `IndexError` when the file
has fewer than two lines; a blank second line yields `'0.1'`; otherwise the
tag is `lines[1].split('=')[1].strip()`, where a missing `=` field raises
`IndexError`, caught to report and yield `None`; `version or None` maps an
empty tag to `None`. -/
def read_veman_activate_script_version (res : ReadResult) : Option (Option String) :=
  match res with
  | .notFound => some none
  | .ioError => some none
  | .ok lines =>
    match lines with
    | _ :: l1 :: _ =>
      if l1 = "\n" then some (some "0.1")
      else
        match py_split l1 '=' with
        | _ :: p1 :: _ =>
          let version := py_strip p1
          some (if version = "" then none else some version)
        | _ => some none
    | _ => none

/-- Observable effects of one lifecycle operation: `exitCode` records a
`sys.exit(n)` escaping the operation, `messages` the `print`ed reports in
order, and the flags which external effects were performed
(`environment.create`, `install_scripts`, symlink `unlink`, `rmtree`,
`subprocess.run` of the interactive shell). -/
structure Outcome where
  exitCode : Option Nat := none
  messages : List String := []
  builderInvoked : Bool := false
  scriptsInstalled : Bool := false
  symlinksRemoved : Bool := false
  treeDeleted : Bool := false
  spawnedShell : Bool := false
  deriving DecidableEq, Repr

/-- Sequential composition of two effectful steps: if the first called
`sys.exit`, the second never runs. -/
def Outcome.seq (a b : Outcome) : Outcome :=
  if a.exitCode.isSome then a
  else
    { exitCode := b.exitCode
      messages := a.messages ++ b.messages
      builderInvoked := a.builderInvoked || b.builderInvoked
      scriptsInstalled := a.scriptsInstalled || b.scriptsInstalled
      symlinksRemoved := a.symlinksRemoved || b.symlinksRemoved
      treeDeleted := a.treeDeleted || b.treeDeleted
      spawnedShell := a.spawnedShell || b.spawnedShell }

/-- No filesystem mutation was performed by the operation. -/
def Outcome.noMutation (o : Outcome) : Prop :=
  o.builderInvoked = false ∧ o.scriptsInstalled = false ∧
    o.symlinksRemoved = false ∧ o.treeDeleted = false

/-- `Veman.upgrade`: exits 1 when the environment does not exist or when
neither `upgrade_deps` nor `upgrade_python` (the object's own flags) is set;
otherwise prints the per-component reports, removes pre-existing interpreter
symlinks when upgrading python (`python_is_symlink`/`python3_is_symlink`
model the two `is_symlink()` probes) and re-invokes the builder
(`environment.create`). -/
def Veman.upgrade (env : Veman) (ex python_is_symlink python3_is_symlink : Bool) :
    Outcome :=
  if !ex then
    { exitCode := some 1, messages := ["Environment " ++ env.name ++ " not found"] }
  else if !env.upgrade_deps && !env.upgrade_python then
    { exitCode := some 1,
      messages := ["Neither core dependencies or python version is set to be upgraded"] }
  else
    let depsMsgs :=
      if env.upgrade_deps then
        ["Core dependencies (pip & setuptools) will be upgraded if not already latest"]
      else []
    let pyMsgs :=
      if env.upgrade_python then
        ["Python will be upgraded to this python (the python binary running the script)"] ++
          (if python_is_symlink then
            ["Removing symlink " ++ env.base_path ++ env.name ++ "/bin/python"]
          else []) ++
          (if python3_is_symlink then
            ["Removing symlink " ++ env.base_path ++ env.name ++ "/bin/python3"]
          else []) ++
          ["Upgrading Python"]
      else []
    { messages := depsMsgs ++ pyMsgs
      builderInvoked := true
      symlinksRemoved := env.upgrade_python && (python_is_symlink || python3_is_symlink) }

/-- `upgrade_venv(environment, upgrade_deps, upgrade_python, upgrade_scripts)`:
calls `environment.upgrade()` when `upgrade_deps or upgrade_python` (a
`sys.exit` there aborts the rest), then `environment.install_scripts()` when
`upgrade_scripts`. -/
def upgrade_venv (environment : Veman)
    (upgrade_deps upgrade_python upgrade_scripts : Bool)
    (ex python_is_symlink python3_is_symlink : Bool) : Outcome :=
  let r1 :=
    if upgrade_deps || upgrade_python then
      environment.upgrade ex python_is_symlink python3_is_symlink
    else {}
  if r1.exitCode.isSome then r1
  else if upgrade_scripts then
    { r1 with
        messages := r1.messages ++ ["Upgrading veman scripts"]
        scriptsInstalled := true }
  else r1

/-- `Veman.delete`: exits 1 when the environment is not in the registry
(`ex`); otherwise removes the tree when the directory exists
(`dir_exists` models `Path(venv_path).is_dir()`). -/
def Veman.delete (env : Veman) (ex dir_exists : Bool) : Outcome :=
  if !ex then
    { exitCode := some 1, messages := ["Environment " ++ env.name ++ " not found"] }
  else if dir_exists then
    { messages := ["Deleting " ++ env.base_path ++ env.name], treeDeleted := true }
  else {}

/-- `Veman.create(overwrite)`: when the name already exists, confirm the
destructive overwrite (`overwrite or input(...) == 'Y'`, `user_confirms`
models the prompt answer); declining returns `False` with no mutation;
confirming deletes and rebuilds.  Returns whether the environment was
(re)built, paired with the effects (builder invocation plus
`install_scripts`; the `post_create` hook is a no-op). -/
def Veman.create (env : Veman) (ex dir_exists overwrite user_confirms : Bool) :
    Bool × Outcome :=
  let build : Outcome :=
    { messages :=
        ["Creating new venv: " ++ env.name ++ " in " ++ env.base_path ++ env.name]
      builderInvoked := true
      scriptsInstalled := true }
  if ex then
    let pre : Outcome :=
      { messages := ["venv with name " ++ env.name ++ " already exists"] }
    if overwrite || user_confirms then
      (true, (pre.seq (env.delete true dir_exists)).seq build)
    else (false, pre)
  else (true, build)

/-- `Veman.activate`: spawns the interactive shell when the environment is
managed, otherwise raises `ValueError` (the `Except.error` carries the
exception's message). -/
def Veman.activate (env : Veman) (ex : Bool) : Except String Outcome :=
  if ex then .ok { spawnedShell := true }
  else .error (env.base_path ++ env.name ++ " is not a managed venv")

/-- `activate_venv(env, context)`: refuses (exit 1) when a currently-active
environment is detected in the context; otherwise delegates to
`env.activate()`, catching its `ValueError` and printing the message. -/
def activate_venv (env : Veman) (ctx : Context) (ex : Bool) : Outcome :=
  if py_truthy ctx.virtual_env then
    { exitCode := some 1,
      messages := ["Deactivate " ++ ctx.virtual_env.getD "" ++
        " before activating another environment"] }
  else
    match env.activate ex with
    | .ok o => o
    | .error e => { messages := [e] }

/-- `create_venv(env, context, overwrite, activate)`: refuses (exit 1) when a
currently-active environment is detected; otherwise creates and, when
requested and actually created, chains an activation (at which point the
environment exists). -/
def create_venv (env : Veman) (ctx : Context)
    (overwrite activate : Bool) (ex dir_exists user_confirms : Bool) : Outcome :=
  if py_truthy ctx.virtual_env then
    { exitCode := some 1,
      messages := ["Deactivate " ++ ctx.virtual_env.getD "" ++
        " before creating a new environment"] }
  else
    let created := env.create ex dir_exists overwrite user_confirms
    if created.1 && activate then created.2.seq (activate_venv env ctx true)
    else created.2

/-- `get_environments(context)`: list the root directory, keep the entries
whose joined path satisfies `is_managed_venv` (an exception there would
propagate, hence the `Option`), and sort ascending.  (Python sorts only
nonempty lists; sorting the empty list is the same.) -/
def get_environments (fs : FS) (ctx : Context) : Option (List String) :=
  (List.filterM (fun entry => is_managed_venv fs (ctx.env_dir ++ entry))
      (fs.listdir ctx.env_dir)).map
    (fun environments => environments.mergeSort (fun a b => a ≤ b))

/-- The `for num in range(0, 5000)` search of `get_temp_venv_name`: `fuel`
counts the remaining iterations after the current one; when it reaches zero
(`num = 4999`) the loop ends and the last computed name is returned whether
or not it is free. -/
def get_temp_venv_name_go (environments : List String) : Nat → Nat → String
  | 0, num => "veman-temp" ++ toString num
  | fuel + 1, num =>
    let venv_name := "veman-temp" ++ toString num
    if venv_name ∈ environments then get_temp_venv_name_go environments fuel (num + 1)
    else venv_name

/-- `get_temp_venv_name(context)`: first name of the form `veman-temp<K>`,
`K < 5000`, not in `get_environments` (which Python re-evaluates each
iteration; it is pure, so it is evaluated once here). -/
def get_temp_venv_name (fs : FS) (ctx : Context) : Option String :=
  (get_environments fs ctx).map
    (fun environments => get_temp_venv_name_go environments 4999 0)

/-- Result of the `get_venv_name_from_user` input loop. -/
inductive SelectResult where
  | selected (venv_name : String)
  | quitZero
  | valueError
  | noMoreInput
  deriving DecidableEq, Repr

/-- `get_venv_name_from_user(command, context)` input loop over the stream of
user inputs.  The initial sentinel `choice = '-1'` always fails the range
test, so the loop starts by consuming the first input.  Per iteration: a
literal `q` exits the process with status 0; then the `while` condition
re-evaluates `int(choice)`, whose `ValueError` on non-numeric input is
uncaught; an in-range index selects `environments[int(choice)-1]`;
out-of-range re-prompts.  An exhausted stream (`noMoreInput`) models the
loop blocked waiting on further input. -/
def get_venv_name_from_user (environments : List String) :
    List String → SelectResult
  | [] => .noMoreInput
  | choice :: rest =>
    if choice = "q" then .quitZero
    else
      match py_int choice with
      | none => .valueError
      | some c =>
        if h : 1 ≤ c ∧ c ≤ (environments.length : Int) then
          .selected (environments.get ⟨(c - 1).toNat, by omega⟩)
        else get_venv_name_from_user environments rest

/-- A filesystem on which every probe succeeds; used to instantiate
universally quantified theorems at a concrete input. -/
def fs_all : FS :=
  { is_dir := fun _ => true, is_file := fun _ => true, listdir := fun _ => [] }

/-- A filesystem on which every probe fails. -/
def fs_empty : FS :=
  { is_dir := fun _ => false, is_file := fun _ => false, listdir := fun _ => [] }

/-- A concrete Linux context with no active environment. -/
def ctx_linux : Context :=
  { os := "linux", shell := "/bin/bash", virtual_env := none, env_dir := "/e/" }

/-- A concrete context in which another environment is currently active. -/
def ctx_active : Context :=
  { os := "linux", shell := "/bin/bash", virtual_env := some "other", env_dir := "/e/" }

/-- A concrete environment object named `foo` (all flags at their
constructor defaults, in particular `upgrade_deps = upgrade_python = false`). -/
def env_foo : Veman :=
  { name := "foo", context := ctx_linux }

theorem normalize_dir_ne_empty {d : String} (h : d ≠ "") : normalize_dir d ≠ "" := by
  unfold normalize_dir
  split
  · intro hc
    have := congrArg String.length hc
    simp [String.length_append] at this
    exact absurd this.2 (by decide)
  · exact h

theorem last_char_append_slash (d : String) : last_char (d ++ "/") = some '/' := by
  unfold last_char
  have : (d ++ "/").toList = d.toList ++ ['/'] := by
    simp [String.toList]
  rw [this, List.getLast?_concat]

theorem normalize_dir_idem (d : String) : normalize_dir (normalize_dir d) = normalize_dir d := by
  by_cases h : last_char d = some '/'
  · have h1 : normalize_dir d = d := by simp [normalize_dir, h]
    rw [h1]
    exact h1
  · have h1 : normalize_dir d = d ++ "/" := by simp [normalize_dir, h]
    rw [h1]
    simp [normalize_dir, last_char_append_slash]

/-- C1: for every filesystem and non-empty directory path, if
`is_managed_venv` returns `True` then `is_venv` returns `True`: the
managed-environment predicate is strictly stronger than the environment
predicate. -/
theorem c1_is_managed_venv_implies_is_venv (fs : FS) (d : String) (h : d ≠ "")
    (hm : is_managed_venv fs d = some true) : is_venv fs d = some true := by
  simp only [is_managed_venv, if_neg h] at hm
  simp only [is_venv, if_neg (normalize_dir_ne_empty h), normalize_dir_idem,
    Option.map_some', Option.some.injEq, Bool.and_eq_true] at hm
  simp only [is_venv, if_neg h, Option.some.injEq, Bool.and_eq_true]
  exact hm.1

/-- Witness for C1 at a concrete filesystem and path. -/
theorem c1_witness :
    ("v" : String) ≠ "" ∧ is_managed_venv fs_all "v" = some true ∧
      is_venv fs_all "v" = some true := by
  refine ⟨by decide, by decide, ?_⟩
  exact c1_is_managed_venv_implies_is_venv fs_all "v" (by decide) (by decide)

/-- C9: the prober predicates `is_venv` and `is_managed_venv` are total
(return a boolean, never raise) on every non-empty path string, and the
empty-string path is outside their domain: there the `directory[-1]` access
raises. -/
theorem c9_prober_totality :
    (∀ fs : FS, is_venv fs "" = none ∧ is_managed_venv fs "" = none) ∧
      (∀ (fs : FS) (d : String), d ≠ "" →
        (is_venv fs d).isSome = true ∧ (is_managed_venv fs d).isSome = true) := by
  constructor
  · intro fs
    constructor
    · simp [is_venv]
    · simp [is_managed_venv]
  · intro fs d h
    constructor
    · simp [is_venv, if_neg h]
    · simp [is_managed_venv, if_neg h, is_venv,
        if_neg (normalize_dir_ne_empty h)]

/-- Witness for C9 at a concrete filesystem and path. -/
theorem c9_witness :
    ("w" : String) ≠ "" ∧ (is_venv fs_empty "w").isSome = true ∧
      (is_managed_venv fs_empty "w").isSome = true := by
  refine ⟨by decide, ?_, ?_⟩
  · exact (c9_prober_totality.2 fs_empty "w" (by decide)).1
  · exact (c9_prober_totality.2 fs_empty "w" (by decide)).2

/-- C2: reading shell history with a missing history file returns the empty
list without error, but with a present-yet-unreadable file (`IOError`) the
code prints the report and then crashes: the `except IOError` handler never
assigns `lines`, so the subsequent loop raises `UnboundLocalError` (`none`)
instead of returning the empty list the spec promises. -/
theorem c2_shell_history_missing_empty_unreadable_crashes :
    shell_history "foo" .notFound false = some [] ∧
      shell_history "foo" .ioError false = none :=
  ⟨rfl, rfl⟩

/-- C4: for every environment and home directory, reading back the version
of the activation script just written by the generator yields exactly the
embedded tag `0.2`; and any script whose second line is blank reads back as
the oldest tag `0.1`. -/
theorem c4_script_version_roundtrip :
    (∀ (env : Veman) (home : String),
      read_veman_activate_script_version
        (.ok (install_scripts_written_file env home)) = some (some "0.2")) ∧
      (∀ (l0 : String) (rest : List String),
        read_veman_activate_script_version (.ok (l0 :: "\n" :: rest)) =
          some (some "0.1")) := by
  constructor
  · intro env home
    rfl
  · intro l0 rest
    rfl

/-- C5 counterexample: on a readable script whose second line has no
parsable version tag, the function returns `None`, not the string
`"unknown"` the claim promises. -/
theorem c5_unknown_counterexample :
    read_veman_activate_script_version (.ok ["#!/bin/bash\n", "no version here\n"]) =
        some none ∧
      some (none : Option String) ≠ some (some "unknown") :=
  ⟨by decide, by decide⟩

/-- C5 amended: when the second-line version tag cannot be parsed (the line
is not blank and splitting on `=` yields fewer than two fields, so
`split('=')[1]` raises the caught `IndexError`), the function reports the
failure and returns `None` — the absence of a version — rather than the
string `"unknown"`. -/
theorem c5_unparsable_version_returns_none (l0 l1 : String) (rest : List String)
    (h1 : l1 ≠ "\n") (h2 : (py_split l1 '=').length < 2) :
    read_veman_activate_script_version (.ok (l0 :: l1 :: rest)) = some none := by
  simp only [read_veman_activate_script_version]
  rw [if_neg h1]
  rcases hs : py_split l1 '=' with _ | ⟨p, _ | ⟨q, r⟩⟩
  · rfl
  · rfl
  · rw [hs] at h2
    simp at h2
    omega

/-- Witness for C5 at a concrete unparsable script. -/
theorem c5_witness :
    ("no version here\n" : String) ≠ "\n" ∧
      (py_split "no version here\n" '=').length < 2 ∧
      read_veman_activate_script_version
        (.ok ["#!/bin/bash\n", "no version here\n"]) = some none := by
  refine ⟨by decide, by decide, ?_⟩
  exact c5_unparsable_version_returns_none "#!/bin/bash\n" "no version here\n" []
    (by decide) (by decide)

/-- C10: version read-back is only well-defined on readable files with at
least two lines: with fewer than two lines the fixed `lines[1]` access
raises an uncaught `IndexError` (`none`); with at least two lines the
function always returns (no crash). -/
theorem c10_version_read_two_line_precondition :
    (∀ lines : List String, lines.length < 2 →
      read_veman_activate_script_version (.ok lines) = none) ∧
      (∀ lines : List String, 2 ≤ lines.length →
        (read_veman_activate_script_version (.ok lines)).isSome = true) := by
  constructor
  · intro lines h
    rcases lines with _ | ⟨a, _ | ⟨b, r⟩⟩
    · rfl
    · rfl
    · simp at h
      omega
  · intro lines h
    rcases lines with _ | ⟨a, _ | ⟨b, r⟩⟩
    · simp at h
    · simp at h
    · by_cases hb : b = "\n"
      · simp [read_veman_activate_script_version, hb]
      · simp only [read_veman_activate_script_version]
        rw [if_neg hb]
        rcases hs : py_split b '=' with _ | ⟨p, _ | ⟨q, r'⟩⟩
        · rfl
        · rfl
        · rfl

/-- Witness for C10: a one-line file crashes, a two-line file returns. -/
theorem c10_witness :
    (["x\n"] : List String).length < 2 ∧
      read_veman_activate_script_version (.ok ["x\n"]) = none ∧
      2 ≤ (["a\n", "b\n"] : List String).length ∧
      (read_veman_activate_script_version (.ok ["a\n", "b\n"])).isSome = true := by
  refine ⟨by decide, ?_, by decide, ?_⟩
  · exact c10_version_read_two_line_precondition.1 ["x\n"] (by decide)
  · exact c10_version_read_two_line_precondition.2 ["a\n", "b\n"] (by decide)

/-- C3 counterexample: `upgrade_venv` on an existing environment with all
three flags false neither reports anything nor exits non-zero — it is a
silent no-op, contradicting the claimed reported failure with non-zero
exit.  (It does perform no filesystem mutation, which the full record
equality in the amended theorem makes precise.) -/
theorem c3_counterexample :
    (upgrade_venv env_foo false false false true false false).exitCode = none ∧
      (upgrade_venv env_foo false false false true false false).messages = [] :=
  ⟨rfl, rfl⟩

/-- C3 amended: `upgrade_venv` with all three flags false is a complete
silent no-op — no exit, no report, no filesystem mutation — because neither
`environment.upgrade()` nor `install_scripts()` is reached; the
"neither ... set to be upgraded" report with exit 1 lives in
`Veman.upgrade` and fires only when that method is invoked with both of the
object's own upgrade flags unset. -/
theorem c3_upgrade_all_flags_false_silent_noop :
    (∀ (env : Veman) (ex l1 l2 : Bool),
      upgrade_venv env false false false ex l1 l2 = ({} : Outcome)) ∧
      (∀ (env : Veman) (l1 l2 : Bool), env.upgrade_deps = false →
        env.upgrade_python = false →
        env.upgrade true l1 l2 =
          { exitCode := some 1
            messages :=
              ["Neither core dependencies or python version is set to be upgraded"] }) := by
  constructor
  · intro env ex l1 l2
    rfl
  · intro env l1 l2 hd hp
    simp [Veman.upgrade, hd, hp]

/-- Witness for the C3 amended theorem at a concrete environment. -/
theorem c3_witness :
    env_foo.upgrade_deps = false ∧ env_foo.upgrade_python = false ∧
      upgrade_venv env_foo false false false true false false = ({} : Outcome) ∧
      Veman.upgrade env_foo true false false =
        { exitCode := some 1
          messages :=
            ["Neither core dependencies or python version is set to be upgraded"] } := by
  refine ⟨rfl, rfl, ?_, ?_⟩
  · exact c3_upgrade_all_flags_false_silent_noop.1 env_foo true false false
  · exact c3_upgrade_all_flags_false_silent_noop.2 env_foo false false rfl rfl

/-- C7: whenever a currently-active environment is detected in the context
(`context.virtual_env` truthy), both `activate_venv` and `create_venv`
refuse up front: they print the conflict and exit 1, with every mutation
and shell-spawn flag still at `false` (the returned records carry the
constructor defaults). -/
theorem c7_active_env_refuses_activate_and_create (env : Veman) (ctx : Context)
    (ex overwrite activate dir_exists user_confirms : Bool)
    (h : py_truthy ctx.virtual_env = true) :
    activate_venv env ctx ex =
        { exitCode := some 1
          messages := ["Deactivate " ++ ctx.virtual_env.getD "" ++
            " before activating another environment"] } ∧
      create_venv env ctx overwrite activate ex dir_exists user_confirms =
        { exitCode := some 1
          messages := ["Deactivate " ++ ctx.virtual_env.getD "" ++
            " before creating a new environment"] } := by
  constructor
  · simp [activate_venv, h]
  · simp [create_venv, h]

/-- Witness for C7 at a concrete context with an active environment. -/
theorem c7_witness :
    py_truthy ctx_active.virtual_env = true ∧
      activate_venv env_foo ctx_active true =
        { exitCode := some 1
          messages := ["Deactivate other before activating another environment"] } ∧
      create_venv env_foo ctx_active false false false false false =
        { exitCode := some 1
          messages := ["Deactivate other before creating a new environment"] } := by
  refine ⟨by decide, ?_, ?_⟩
  · exact (c7_active_env_refuses_activate_and_create env_foo ctx_active true false
      false false false (by decide)).1
  · exact (c7_active_env_refuses_activate_and_create env_foo ctx_active false false
      false false false (by decide)).2

/-- C6 counterexample: with one candidate, the non-numeric input `x` makes
the selection loop raise an uncaught `ValueError` from `int(choice)` instead
of silently re-prompting — had it re-prompted, the following input `1` would
have selected the candidate, as the second conjunct shows. -/
theorem c6_nonnumeric_counterexample :
    get_venv_name_from_user ["a"] ["x", "1"] = .valueError ∧
      get_venv_name_from_user ["a"] ["1"] = .selected "a" := by
  constructor
  · rfl
  · rfl

/-- C6 amended: in the interactive selection loop, a numeric input outside
`1..N` silently re-prompts; a non-numeric input other than the quit
sentinel raises an uncaught `ValueError` (it does not re-prompt); the quit
sentinel `q` exits the whole process with status 0. -/
theorem c6_selection_loop_behavior (environments rest : List String) :
    (∀ (choice : String) (c : Int), choice ≠ "q" → py_int choice = some c →
      ¬(1 ≤ c ∧ c ≤ (environments.length : Int)) →
      get_venv_name_from_user environments (choice :: rest) =
        get_venv_name_from_user environments rest) ∧
      (∀ choice : String, choice ≠ "q" → py_int choice = none →
        get_venv_name_from_user environments (choice :: rest) = .valueError) ∧
      get_venv_name_from_user environments ("q" :: rest) = .quitZero := by
  refine ⟨?_, ?_, ?_⟩
  · intro choice c hq hc hrange
    simp only [get_venv_name_from_user, if_neg hq, hc]
    rw [dif_neg hrange]
  · intro choice hq hc
    simp only [get_venv_name_from_user, if_neg hq, hc]
  · simp [get_venv_name_from_user]

/-- Witness for the C6 amended theorem: out-of-range `0` re-prompts,
non-numeric `x` raises, `q` quits. -/
theorem c6_witness :
    get_venv_name_from_user ["a"] ["0"] = get_venv_name_from_user ["a"] [] ∧
      get_venv_name_from_user ["a"] ["x"] = .valueError ∧
      get_venv_name_from_user ["a"] ["q"] = .quitZero := by
  refine ⟨?_, ?_, ?_⟩
  · exact (c6_selection_loop_behavior ["a"] []).1 "0" 0 (by decide) (by decide)
      (by decide)
  · exact (c6_selection_loop_behavior ["a"] []).2.1 "x" (by decide) (by decide)
  · exact (c6_selection_loop_behavior ["a"] []).2.2

/-- The `range(0, 5000)` search returns the least free index: if `K` lies in
the remaining range, the name at `K` is free and every earlier name from
`num` on is taken, the loop stops exactly at `K`. -/
theorem get_temp_venv_name_go_least (environments : List String) :
    ∀ (fuel num K : Nat), num ≤ K → K < num + fuel + 1 →
      ("veman-temp" ++ toString K) ∉ environments →
      (∀ j, num ≤ j → j < K → ("veman-temp" ++ toString j) ∈ environments) →
      get_temp_venv_name_go environments fuel num = "veman-temp" ++ toString K := by
  intro fuel
  induction fuel with
  | zero =>
    intro num K h1 h2 _ _
    have : K = num := by omega
    subst this
    rfl
  | succ n ih =>
    intro num K h1 h2 h3 h4
    have hstep : get_temp_venv_name_go environments (n + 1) num =
        if ("veman-temp" ++ toString num) ∈ environments then
          get_temp_venv_name_go environments n (num + 1)
        else "veman-temp" ++ toString num := rfl
    rw [hstep]
    by_cases hmem : ("veman-temp" ++ toString num) ∈ environments
    · have hne : num ≠ K := by
        intro e
        rw [e] at hmem
        exact h3 hmem
      rw [if_pos hmem]
      exact ih (num + 1) K (by omega) (by omega) h3
        (fun j hj1 hj2 => h4 j (by omega) hj2)
    · have hK : K = num := by
        by_contra hne
        have hlt : num < K := by omega
        exact hmem (h4 num (le_refl _) hlt)
      rw [if_neg hmem, hK]

/-- C8: whenever the managed-environment listing succeeds and some index
`K < 5000` has no environment named `veman-temp<K>`, `get_temp_venv_name`
returns `veman-temp<K>` for the least such `K` — the first name of that form
not already present in the list. -/
theorem c8_get_temp_venv_name_first_free (fs : FS) (ctx : Context)
    (environments : List String) (K : Nat)
    (henv : get_environments fs ctx = some environments)
    (hK : K < 5000)
    (hfree : ("veman-temp" ++ toString K) ∉ environments)
    (hleast : ∀ j, j < K → ("veman-temp" ++ toString j) ∈ environments) :
    get_temp_venv_name fs ctx = some ("veman-temp" ++ toString K) := by
  unfold get_temp_venv_name
  rw [henv, Option.map_some']
  congr 1
  exact get_temp_venv_name_go_least environments 4999 0 K (Nat.zero_le _) (by omega)
    hfree (fun j _ hj => hleast j hj)

/-- Witness for C8 on an empty root directory: the first temp name is
`veman-temp0`. -/
theorem c8_witness :
    get_environments fs_empty ctx_linux = some [] ∧ (0 : Nat) < 5000 ∧
      ("veman-temp" ++ toString 0) ∉ ([] : List String) ∧
      get_temp_venv_name fs_empty ctx_linux = some ("veman-temp" ++ toString 0) := by
  have henv : get_environments fs_empty ctx_linux = some [] := by
    simp [get_environments, fs_empty, ctx_linux, List.filterM, List.filterAuxM]
  refine ⟨henv, by decide, by simp, ?_⟩
  exact c8_get_temp_venv_name_first_free fs_empty ctx_linux [] 0 henv (by decide)
    (by simp) (fun j hj => absurd hj (by omega))

end Veman2Proof
